import Mathlib

/-!
Verification of the `zero2prod` bootstrap (`src/main.rs`).

The source program is:

    use std::net::TcpListener;
    use zero2prod::startup::run;

    #[tokio::main]
    async fn main() -> Result<(), std::io::Error> {
        let listener = TcpListener::bind("127.0.0.1:800").expect("Failed to bind to port");
        run(listener)?.await
    }

We embed it shallowly: the three external effects (the OS `bind` call, the
external collaborator `run`, and awaiting the returned server future) are
modelled as an environment of oracles, and `mainBoot` is the straight-line
composition the source performs, returning both the process outcome and a
trace of the observable events in order.  `.expect(msg)` on a failed bind is
modelled as a panic carrying the literal message passed to `expect`;
`run(listener)?` propagates a construction error through the `Result`
channel; `.await` resolves the server unit to its terminal result.
-/

/-- A `std::io::Error`, identified by an OS error code and a message. -/
structure IOError where
  code : Nat
  msg : String
deriving DecidableEq, Repr

instance {ε α : Type} [DecidableEq ε] [DecidableEq α] :
    DecidableEq (Except ε α) := fun a b =>
  match a, b with
  | .ok x, .ok y =>
      if h : x = y then .isTrue (by rw [h])
      else .isFalse (fun hc => h (Except.ok.inj hc))
  | .ok _, .error _ => .isFalse (fun hc => Except.noConfusion hc)
  | .error _, .ok _ => .isFalse (fun hc => Except.noConfusion hc)
  | .error x, .error y =>
      if h : x = y then .isTrue (by rw [h])
      else .isFalse (fun hc => h (Except.error.inj hc))

/-- A bound TCP listener (`std::net::TcpListener`), identified by the
address it is bound to. -/
structure Listener where
  addr : String
deriving DecidableEq, Repr

/-- The opaque awaitable server unit returned by `zero2prod::startup::run`. -/
structure ServerUnit where
  id : Nat
deriving DecidableEq, Repr

/-- The environment of external effects the bootstrap composes:
the OS bind call, the collaborator `run`, and resolution of the awaited
server unit. -/
structure Env where
  bind : String → Except IOError Listener
  run : Listener → Except IOError ServerUnit
  await : ServerUnit → Except IOError Unit

/-- The terminal status of the process: either a panic (from `.expect`)
with its message, or a normal exit carrying `main`'s `Result`. -/
inductive ProcessOutcome where
  | panicked (msg : String)
  | exited (r : Except IOError Unit)
deriving DecidableEq, Repr

/-- Observable events of one bootstrap execution, in order. -/
inductive Event where
  | bindAttempt (addr : String)
  | bindSuccess (l : Listener)
  | bindFailure (e : IOError)
  | panicEv (msg : String)
  | runInvoked (l : Listener)
  | runFailed (e : IOError)
  | awaitServer (s : ServerUnit)
  | serverResolved (r : Except IOError Unit)
deriving DecidableEq, Repr

/-- The literal bind address hardcoded in `main.rs` line 7. -/
def BIND_ADDR : String := "127.0.0.1:800"

/-- The literal message passed to `.expect` in `main.rs` line 7. -/
def BIND_EXPECT_MSG : String := "Failed to bind to port"

/-- The body of `main`: bind the fixed address, panicking on failure with the
`expect` message; pass the listener to `run`, propagating a construction
error via `?`; await the returned server unit and return its result.
Returns the process outcome together with the ordered event trace. -/
def mainBoot (env : Env) : ProcessOutcome × List Event :=
  match env.bind BIND_ADDR with
  | .error e =>
      (.panicked BIND_EXPECT_MSG,
       [.bindAttempt BIND_ADDR, .bindFailure e, .panicEv BIND_EXPECT_MSG])
  | .ok l =>
      match env.run l with
      | .error e =>
          (.exited (.error e),
           [.bindAttempt BIND_ADDR, .bindSuccess l, .runInvoked l,
            .runFailed e])
      | .ok s =>
          (.exited (env.await s),
           [.bindAttempt BIND_ADDR, .bindSuccess l, .runInvoked l,
            .awaitServer s, .serverResolved (env.await s)])

/-- The process outcome of one execution of `main`. -/
def mainOutcome (env : Env) : ProcessOutcome := (mainBoot env).1

/-- The event trace of one execution of `main`. -/
def mainTrace (env : Env) : List Event := (mainBoot env).2

/-- Where, if anywhere, the bootstrap failed in a given environment. -/
inductive FailSite where
  | bindFail (e : IOError)
  | constructFail (e : IOError)
  | runtimeFail (e : IOError)
  | noFail
deriving DecidableEq, Repr

/-- Classifies an environment by the first failing stage of the
bind → construct → await pipeline. -/
def failSite (env : Env) : FailSite :=
  match env.bind BIND_ADDR with
  | .error e => .bindFail e
  | .ok l =>
      match env.run l with
      | .error e => .constructFail e
      | .ok s =>
          match env.await s with
          | .error e => .runtimeFail e
          | .ok _ => .noFail

/-- The process status dictated purely by the failure site: bind failure
panics, construction and runtime failures exit with the error, otherwise
the process exits cleanly. -/
def outcomeOfSite : FailSite → ProcessOutcome
  | .bindFail _ => .panicked BIND_EXPECT_MSG
  | .constructFail e => .exited (.error e)
  | .runtimeFail e => .exited (.error e)
  | .noFail => .exited (.ok ())

/-- Number of bind attempts recorded in a trace. -/
def countBindAttempts : List Event → Nat
  | [] => 0
  | .bindAttempt _ :: t => countBindAttempts t + 1
  | _ :: t => countBindAttempts t

/-- Number of invocations of the collaborator `run` recorded in a trace. -/
def countRunInvoked : List Event → Nat
  | [] => 0
  | .runInvoked _ :: t => countRunInvoked t + 1
  | _ :: t => countRunInvoked t

/-- Number of awaits of a server unit recorded in a trace. -/
def countAwaits : List Event → Nat
  | [] => 0
  | .awaitServer _ :: t => countAwaits t + 1
  | _ :: t => countAwaits t

/-- The address of a bind-attempt event, if it is one. -/
def bindAddrOf : Event → Option String
  | .bindAttempt a => some a
  | _ => none

/-- Whether an event accesses the given listener. -/
def mentionsListener (l : Listener) : Event → Bool
  | .bindSuccess x => decide (x = l)
  | .runInvoked x => decide (x = l)
  | _ => false

/- Concrete environments used as evaluation witnesses. -/

/-- A concrete `EADDRINUSE`-style I/O error. -/
def errAddrInUse : IOError := ⟨98, "address in use"⟩

/-- A concrete `ECONNRESET`-style I/O error. -/
def errConnReset : IOError := ⟨104, "connection reset"⟩

/-- Environment where the OS refuses every bind. -/
def envBindFail : Env where
  bind := fun _ => .error errAddrInUse
  run := fun _ => .ok ⟨0⟩
  await := fun _ => .ok ()

/-- Environment where binds succeed but `run` fails to construct a server. -/
def envConstructFail : Env where
  bind := fun a => .ok ⟨a⟩
  run := fun _ => .error errConnReset
  await := fun _ => .ok ()

/-- Environment where construction succeeds and the running server later
terminates with an I/O error. -/
def envRuntimeFail : Env where
  bind := fun a => .ok ⟨a⟩
  run := fun _ => .ok ⟨1⟩
  await := fun _ => .error errConnReset

/-- Environment where everything succeeds. -/
def envAllOk : Env where
  bind := fun a => .ok ⟨a⟩
  run := fun _ => .ok ⟨1⟩
  await := fun _ => .ok ()

/-- Environment extensionally equal to `envBindFail` at the fixed address
but defined differently elsewhere. -/
def envBindFailAlt : Env where
  bind := fun a => if a = BIND_ADDR then .error errAddrInUse else .ok ⟨a⟩
  run := fun _ => .ok ⟨0⟩
  await := fun _ => .ok ()

/-- Shape of the execution when the bind fails. -/
theorem mainBoot_of_bind_error (env : Env) (e : IOError)
    (hb : env.bind BIND_ADDR = Except.error e) :
    mainBoot env =
      (ProcessOutcome.panicked BIND_EXPECT_MSG,
       [Event.bindAttempt BIND_ADDR, Event.bindFailure e,
        Event.panicEv BIND_EXPECT_MSG]) := by
  unfold mainBoot
  simp only [hb]

/-- Shape of the execution when the bind succeeds and `run` fails. -/
theorem mainBoot_of_run_error (env : Env) (l : Listener) (e : IOError)
    (hb : env.bind BIND_ADDR = Except.ok l)
    (hr : env.run l = Except.error e) :
    mainBoot env =
      (ProcessOutcome.exited (Except.error e),
       [Event.bindAttempt BIND_ADDR, Event.bindSuccess l,
        Event.runInvoked l, Event.runFailed e]) := by
  unfold mainBoot
  simp only [hb, hr]

/-- Shape of the execution when both the bind and `run` succeed. -/
theorem mainBoot_of_run_ok (env : Env) (l : Listener) (s : ServerUnit)
    (hb : env.bind BIND_ADDR = Except.ok l)
    (hr : env.run l = Except.ok s) :
    mainBoot env =
      (ProcessOutcome.exited (env.await s),
       [Event.bindAttempt BIND_ADDR, Event.bindSuccess l,
        Event.runInvoked l, Event.awaitServer s,
        Event.serverResolved (env.await s)]) := by
  unfold mainBoot
  simp only [hb, hr]

/-- C1: every bootstrap error is handled by propagation, not recovery: the
process's final status is exactly the function `outcomeOfSite` of where the
failure occurred, and the trace shows a single bind attempt, at most one
invocation of `run`, and at most one await — no retry, circuit-breaking, or
fallback path. -/
theorem bootstrap_propagates_every_error (env : Env) :
    mainOutcome env = outcomeOfSite (failSite env) ∧
    countBindAttempts (mainTrace env) = 1 ∧
    countRunInvoked (mainTrace env) ≤ 1 ∧
    countAwaits (mainTrace env) ≤ 1 := by
  cases hb : env.bind BIND_ADDR with
  | error e =>
      simp [mainOutcome, mainTrace, mainBoot_of_bind_error env e hb,
            failSite, hb, outcomeOfSite, countBindAttempts,
            countRunInvoked, countAwaits]
  | ok l =>
      cases hr : env.run l with
      | error e =>
          simp [mainOutcome, mainTrace, mainBoot_of_run_error env l e hb hr,
                failSite, hb, hr, outcomeOfSite, countBindAttempts,
                countRunInvoked, countAwaits]
      | ok s =>
          cases ha : env.await s with
          | error e =>
              simp [mainOutcome, mainTrace,
                    mainBoot_of_run_ok env l s hb hr, failSite, hb, hr, ha,
                    outcomeOfSite, countBindAttempts, countRunInvoked,
                    countAwaits]
          | ok u =>
              simp [mainOutcome, mainTrace,
                    mainBoot_of_run_ok env l s hb hr, failSite, hb, hr, ha,
                    outcomeOfSite, countBindAttempts, countRunInvoked,
                    countAwaits]

/-- C2: if binding the fixed address fails, the bootstrap panics immediately
with the `expect` message and the collaborator `run` is never invoked in
that execution. -/
theorem bind_failure_is_fatal_and_precludes_run (env : Env) (e : IOError)
    (hb : env.bind BIND_ADDR = Except.error e) :
    mainOutcome env = ProcessOutcome.panicked BIND_EXPECT_MSG ∧
    countRunInvoked (mainTrace env) = 0 := by
  simp [mainOutcome, mainTrace, mainBoot_of_bind_error env e hb,
        countRunInvoked]

/-- Witness for C2: in the concrete environment where the OS refuses the
bind, the process panics with the fixed message and `run` is not called. -/
theorem bind_failure_is_fatal_and_precludes_run_witness :
    mainOutcome envBindFail = ProcessOutcome.panicked BIND_EXPECT_MSG ∧
    countRunInvoked (mainTrace envBindFail) = 0 :=
  bind_failure_is_fatal_and_precludes_run envBindFail errAddrInUse rfl

/-- C3: `run` is invoked only on a listener obtained from a successful bind,
and the bind success strictly precedes the invocation in the trace. -/
theorem run_only_after_successful_bind (env : Env) (l : Listener)
    (h : Event.runInvoked l ∈ mainTrace env) :
    env.bind BIND_ADDR = Except.ok l ∧
    ∃ t₁ t₂ t₃, mainTrace env =
      t₁ ++ [Event.bindSuccess l] ++ t₂ ++ [Event.runInvoked l] ++ t₃ := by
  cases hb : env.bind BIND_ADDR with
  | error e =>
      rw [mainTrace, mainBoot_of_bind_error env e hb] at h
      simp at h
  | ok l' =>
      cases hr : env.run l' with
      | error e =>
          rw [mainTrace, mainBoot_of_run_error env l' e hb hr] at h
          simp at h
          subst h
          refine ⟨rfl, [Event.bindAttempt BIND_ADDR], [],
                  [Event.runFailed e], ?_⟩
          simp [mainTrace, mainBoot_of_run_error env l e hb hr]
      | ok s =>
          rw [mainTrace, mainBoot_of_run_ok env l' s hb hr] at h
          simp at h
          subst h
          refine ⟨rfl, [Event.bindAttempt BIND_ADDR], [],
                  [Event.awaitServer s,
                   Event.serverResolved (env.await s)], ?_⟩
          simp [mainTrace, mainBoot_of_run_ok env l s hb hr]

/-- Witness for C3: in the all-successful concrete environment, `run` is
invoked, the bind returned exactly that listener, and the bind-success event
precedes the invocation. -/
theorem run_only_after_successful_bind_witness :
    envAllOk.bind BIND_ADDR = Except.ok ⟨BIND_ADDR⟩ ∧
    ∃ t₁ t₂ t₃, mainTrace envAllOk =
      t₁ ++ [Event.bindSuccess ⟨BIND_ADDR⟩] ++ t₂ ++
        [Event.runInvoked ⟨BIND_ADDR⟩] ++ t₃ :=
  run_only_after_successful_bind envAllOk ⟨BIND_ADDR⟩ (by decide)

/-- C4: if `run` returns a construction error, `main` returns that error
through its `Result` channel and no server unit is ever awaited. -/
theorem construction_error_returned_without_await (env : Env)
    (l : Listener) (e : IOError)
    (hb : env.bind BIND_ADDR = Except.ok l)
    (hr : env.run l = Except.error e) :
    mainOutcome env = ProcessOutcome.exited (Except.error e) ∧
    countAwaits (mainTrace env) = 0 := by
  simp [mainOutcome, mainTrace, mainBoot_of_run_error env l e hb hr,
        countAwaits]

/-- Witness for C4: in the concrete environment where construction fails,
the process exits with that exact error and nothing is awaited. -/
theorem construction_error_returned_without_await_witness :
    mainOutcome envConstructFail =
      ProcessOutcome.exited (Except.error errConnReset) ∧
    countAwaits (mainTrace envConstructFail) = 0 :=
  construction_error_returned_without_await envConstructFail
    ⟨BIND_ADDR⟩ errConnReset rfl rfl

/-- C5: after a successful bind and construction, the process outcome is
exactly the awaited server unit's resolution — `Ok` mirrors `Ok` and an I/O
error is surfaced unwrapped and unaltered. -/
theorem process_mirrors_server_resolution (env : Env)
    (l : Listener) (s : ServerUnit)
    (hb : env.bind BIND_ADDR = Except.ok l)
    (hr : env.run l = Except.ok s) :
    mainOutcome env = ProcessOutcome.exited (env.await s) := by
  simp [mainOutcome, mainBoot_of_run_ok env l s hb hr]

/-- Witness for C5: in the concrete environment whose server unit resolves
with a connection-reset error, the process surfaces exactly that error. -/
theorem process_mirrors_server_resolution_witness :
    mainOutcome envRuntimeFail =
      ProcessOutcome.exited (envRuntimeFail.await ⟨1⟩) :=
  process_mirrors_server_resolution envRuntimeFail ⟨BIND_ADDR⟩ ⟨1⟩ rfl rfl

/-- C6: every execution attempts to bind exactly one address, and it is the
literal build-time string "127.0.0.1:800"; the bootstrap takes no input that
can change it. -/
theorem bind_address_is_fixed_literal (env : Env) :
    (mainTrace env).filterMap bindAddrOf = [BIND_ADDR] ∧
    BIND_ADDR = "127.0.0.1:800" := by
  refine ⟨?_, rfl⟩
  cases hb : env.bind BIND_ADDR with
  | error e =>
      simp [mainTrace, mainBoot_of_bind_error env e hb, bindAddrOf]
  | ok l =>
      cases hr : env.run l with
      | error e =>
          simp [mainTrace, mainBoot_of_run_error env l e hb hr, bindAddrOf]
      | ok s =>
          simp [mainTrace, mainBoot_of_run_ok env l s hb hr, bindAddrOf]

/-- C7: in every execution, for every listener value, the driver's trace
either never touches it or touches it exactly twice — once created by a
successful bind and once handed to `run`, in that order, with no access
after the transfer; and only one bind attempt ever occurs, so there is no
re-binding. -/
theorem single_listener_single_transfer (env : Env) (l : Listener) :
    ((mainTrace env).filter (mentionsListener l) = [] ∨
     (mainTrace env).filter (mentionsListener l) =
       [Event.bindSuccess l, Event.runInvoked l]) ∧
    countBindAttempts (mainTrace env) = 1 := by
  cases hb : env.bind BIND_ADDR with
  | error e =>
      rw [mainTrace, mainBoot_of_bind_error env e hb]
      exact ⟨Or.inl (by simp [mentionsListener]),
             by simp [countBindAttempts]⟩
  | ok l' =>
      cases hr : env.run l' with
      | error e =>
          rw [mainTrace, mainBoot_of_run_error env l' e hb hr]
          refine ⟨?_, by simp [countBindAttempts]⟩
          by_cases hl : l' = l
          · subst hl
            exact Or.inr (by simp [mentionsListener])
          · exact Or.inl (by simp [mentionsListener, hl])
      | ok s =>
          rw [mainTrace, mainBoot_of_run_ok env l' s hb hr]
          refine ⟨?_, by simp [countBindAttempts]⟩
          by_cases hl : l' = l
          · subst hl
            exact Or.inr (by simp [mentionsListener])
          · exact Or.inl (by simp [mentionsListener, hl])

/-- C8: the bootstrap retains no state between invocations: any two runs in
environments that agree on the OS-level conditions it consults (the bind
result at the fixed address, the collaborator, and server resolution)
produce identical outcomes and traces — in particular, re-running after a
failed bind fails again in the same way. -/
theorem rerun_same_conditions_same_outcome (env₁ env₂ : Env)
    (hb : env₁.bind BIND_ADDR = env₂.bind BIND_ADDR)
    (hr : env₁.run = env₂.run)
    (ha : env₁.await = env₂.await) :
    mainBoot env₁ = mainBoot env₂ := by
  unfold mainBoot
  rw [hb, hr, ha]

/-- Witness for C8: the two concrete bind-failure environments, which are
defined differently but agree on the consulted conditions, produce the same
outcome and trace. -/
theorem rerun_same_conditions_same_outcome_witness :
    mainBoot envBindFail = mainBoot envBindFailAlt :=
  rerun_same_conditions_same_outcome envBindFail envBindFailAlt
    (by simp [envBindFail, envBindFailAlt, BIND_ADDR]) rfl rfl

/-- C9: bind failure panics with the fixed `expect` message instead of using
`main`'s `Result` channel, and conversely any `Err` exit of `main` came from
a successful bind followed by a construction failure or a runtime failure —
never from the bind. -/
theorem err_channel_never_carries_bind_error (env : Env) :
    (∀ e, env.bind BIND_ADDR = Except.error e →
        mainOutcome env = ProcessOutcome.panicked BIND_EXPECT_MSG) ∧
    (∀ e, mainOutcome env = ProcessOutcome.exited (Except.error e) →
        ∃ l, env.bind BIND_ADDR = Except.ok l ∧
          (env.run l = Except.error e ∨
           ∃ s, env.run l = Except.ok s ∧
                env.await s = Except.error e)) := by
  constructor
  · intro e hb
    simp [mainOutcome, mainBoot_of_bind_error env e hb]
  · intro e he
    cases hb : env.bind BIND_ADDR with
    | error e₀ =>
        rw [mainOutcome, mainBoot_of_bind_error env e₀ hb] at he
        simp at he
    | ok l =>
        refine ⟨l, rfl, ?_⟩
        cases hr : env.run l with
        | error e' =>
            rw [mainOutcome, mainBoot_of_run_error env l e' hb hr] at he
            simp at he
            subst he
            exact Or.inl rfl
        | ok s =>
            rw [mainOutcome, mainBoot_of_run_ok env l s hb hr] at he
            simp at he
            exact Or.inr ⟨s, rfl, he⟩

/-- Witness for C9: concretely, a refused bind yields the panic with the
fixed message, and a runtime-failing server yields an `Err` exit that traces
back to a successful bind plus the server's own resolution. -/
theorem err_channel_never_carries_bind_error_witness :
    mainOutcome envBindFail = ProcessOutcome.panicked BIND_EXPECT_MSG ∧
    ∃ l, envRuntimeFail.bind BIND_ADDR = Except.ok l ∧
      (envRuntimeFail.run l = Except.error errConnReset ∨
       ∃ s, envRuntimeFail.run l = Except.ok s ∧
            envRuntimeFail.await s = Except.error errConnReset) :=
  ⟨(err_channel_never_carries_bind_error envBindFail).1 errAddrInUse rfl,
   (err_channel_never_carries_bind_error envRuntimeFail).2 errConnReset rfl⟩

/-- C10: construction failures and runtime failures are surfaced through the
same channel with the same error type: an environment failing at
construction and one failing at runtime with the same `IOError` yield the
very same process outcome, indistinguishable by inspection of the result. -/
theorem construct_and_runtime_errors_indistinguishable
    (env₁ env₂ : Env) (l₁ l₂ : Listener) (s₂ : ServerUnit) (e : IOError)
    (hb₁ : env₁.bind BIND_ADDR = Except.ok l₁)
    (hr₁ : env₁.run l₁ = Except.error e)
    (hb₂ : env₂.bind BIND_ADDR = Except.ok l₂)
    (hr₂ : env₂.run l₂ = Except.ok s₂)
    (ha₂ : env₂.await s₂ = Except.error e) :
    mainOutcome env₁ = ProcessOutcome.exited (Except.error e) ∧
    mainOutcome env₂ = ProcessOutcome.exited (Except.error e) ∧
    mainOutcome env₁ = mainOutcome env₂ := by
  have h₁ := mainBoot_of_run_error env₁ l₁ e hb₁ hr₁
  have h₂ := mainBoot_of_run_ok env₂ l₂ s₂ hb₂ hr₂
  simp [mainOutcome, h₁, h₂, ha₂]

/-- Witness for C10: the concrete construction-failure and runtime-failure
environments produce the identical process outcome. -/
theorem construct_and_runtime_errors_indistinguishable_witness :
    mainOutcome envConstructFail =
      ProcessOutcome.exited (Except.error errConnReset) ∧
    mainOutcome envRuntimeFail =
      ProcessOutcome.exited (Except.error errConnReset) ∧
    mainOutcome envConstructFail = mainOutcome envRuntimeFail :=
  construct_and_runtime_errors_indistinguishable envConstructFail
    envRuntimeFail ⟨BIND_ADDR⟩ ⟨BIND_ADDR⟩ ⟨1⟩ errConnReset rfl rfl rfl rfl
    rfl
